import Mathlib

/-!
Verification development for the Swar sonification orchestrator
(frontend App component, theme registry and sound-effect registry).

The definitions below are a shallow embedding of the TypeScript source:
the WebSocket onmessage note mapper, the cumulative-time schedule fold in
the onclose handler, the playback dispatch callback, the stop / unmount
teardown routines, and the theme / palette / sound-effect registries.
Durations are modelled in seconds as exact rationals, using the library
conversion at the default 120 BPM transport (4n = 1/2 s, 8n = 1/4 s,
16n = 1/8 s).  JavaScript numbers that are only ever integers are
modelled as Int (or Nat for the monotone message counter).
-/

namespace Swar

/-- A pitch value: either a single pitch name or the 2-note chord the
mapper emits for function events. -/
inductive NoteVal
  | single (p : String)
  | chord (a b : String)
deriving DecidableEq, Repr

/-- An incoming JSON message on the analyzer channel, either a structural
event (isError = false, with type / startLine / endLine) or an error event
(isError = true, with type / line / message / severity).  Fields that are
absent on the wire are modelled with their JS-undefined stand-ins. -/
structure WsMessage where
  isError : Bool := false
  type : String
  startLine : Int := 0
  endLine : Int := 0
  line : Int := 0
  message : String := ""
  severity : Option Int := none
deriving DecidableEq, Repr

/-- Entry of the collectedErrors list (the ErrorInfo interface). -/
structure ErrorInfo where
  line : Int
  type : String
  message : String
  severity : Int
deriving DecidableEq, Repr

/-- A mapped musical event, as pushed onto musicalEvents by the onmessage
handler (the note / duration fields plus the spread of the source data). -/
structure MusicalEvent where
  note : NoteVal
  duration : String
  type : String
  startLine : Int
  endLine : Int
  line : Int
  message : String
  severityRaw : Option Int
  isError : Bool
  errorType : Option String
deriving DecidableEq, Repr

/-- The mutable state accumulated by the onmessage handler closure:
the musicalEvents buffer, the messageCounter, and collectedErrors. -/
structure IngestState where
  musicalEvents : List MusicalEvent
  messageCounter : Nat
  collectedErrors : List ErrorInfo
deriving DecidableEq, Repr

/-- JS `severity || 1`: 0 (and undefined) are falsy and default to 1. -/
def jsOrOne : Option Int → Int
  | none => 1
  | some s => if s = 0 then 1 else s

/-- JS `String.prototype.includes`: `s.includes pat` holds iff splitting
on the pattern yields more than one part. -/
def includesStr (s pat : String) : Bool :=
  (s.splitOn pat).length ≥ 2

/-- JS array indexing `scale[i % scale.length]` as used by the mapper. -/
def scaleIdx (scale : List String) (i : Nat) : String :=
  scale.getD (i % scale.length) ""

/-- The object literal `{ note, duration, ...data }` pushed for a
structural event. -/
def mkStructuralEvent (note : NoteVal) (duration : String) (d : WsMessage) :
    MusicalEvent :=
  { note := note, duration := duration, type := d.type,
    startLine := d.startLine, endLine := d.endLine, line := d.line,
    message := d.message, severityRaw := d.severity,
    isError := d.isError, errorType := none }

/-- The object literal pushed for an error event:
`{ note, duration, ...data, isError: true, errorType: data.type,
severity: data.severity, message: data.message }`. -/
def mkErrorEvent (note : NoteVal) (duration : String) (d : WsMessage) :
    MusicalEvent :=
  { note := note, duration := duration, type := d.type,
    startLine := d.startLine, endLine := d.endLine, line := d.line,
    message := d.message, severityRaw := d.severity,
    isError := true, errorType := some d.type }

/-- Helper for the structural branch: push the event and advance the
messageCounter (the `messageCounter++; musicalEvents.push(...)` tail). -/
def emitStructural (st : IngestState) (note : NoteVal) (duration : String)
    (d : WsMessage) : IngestState :=
  { st with messageCounter := st.messageCounter + 1,
            musicalEvents := st.musicalEvents ++ [mkStructuralEvent note duration d] }

/-- The ws.current.onmessage handler body: computes
`noteIndex = Math.abs(data.startLine + messageCounter)`, then either maps
an error event through the fixed per-kind table (collecting it into
collectedErrors, without touching the counter), or maps a structural event
through the scale, dropping unknown short / comment-like types. -/
def onMessage (scale : List String) (st : IngestState) (d : WsMessage) :
    IngestState :=
  let noteIndex : Nat := (d.startLine + (st.messageCounter : Int)).natAbs
  if d.isError then
    let st := { st with collectedErrors := st.collectedErrors ++
      [({ line := d.line, type := d.type, message := d.message,
          severity := jsOrOne d.severity } : ErrorInfo)] }
    let nd : NoteVal × String :=
      if d.type = "syntax_error" then (NoteVal.single "C2", "4n")
      else if d.type = "logical_error" then (NoteVal.single "E3", "8n")
      else if d.type = "runtime_error" then (NoteVal.single "D2", "4n")
      else if d.type = "best_practice" then (NoteVal.single "A4", "16n")
      else (NoteVal.single "C2", "8n")
    { st with musicalEvents := st.musicalEvents ++ [mkErrorEvent nd.1 nd.2 d] }
  else
    if d.type = "function_declaration" ∨ d.type = "arrow_function" then
      emitStructural st
        (NoteVal.chord (scaleIdx scale noteIndex) (scaleIdx scale (noteIndex + 3)))
        "4n" d
    else if d.type = "for_statement" ∨ d.type = "while_statement" then
      emitStructural st (NoteVal.single (scaleIdx scale noteIndex)) "8n" d
    else if d.type = "if_statement" then
      emitStructural st (NoteVal.single (scaleIdx scale noteIndex)) "8n" d
    else if d.type.length < 5 ∨ includesStr d.type "comment" then st
    else emitStructural st (NoteVal.single (scaleIdx scale noteIndex)) "16n" d

/-- Processing a whole arrival-ordered message sequence: the onmessage
handler applied message by message. -/
def processMessages (scale : List String) (st : IngestState) :
    List WsMessage → IngestState
  | [] => st
  | d :: ds => processMessages scale (onMessage scale st d) ds

/-- The ambient nondeterminism available to a browser event handler: a
wall-clock reading and a stream of random draws.  The onmessage handler
reads neither (Date.now and Math.random occur only in the visual dispatch
callback), which the definitions below make explicit. -/
structure Ambient where
  now : Nat
  rand : Nat → Rat

/-- The onmessage handler with the ambient environment in scope: its body
reads no ambient value, so it delegates to the pure mapper. -/
def onMessageAmb (_amb : Ambient) (scale : List String) (st : IngestState)
    (d : WsMessage) : IngestState :=
  onMessage scale st d

/-- Message-sequence processing with the ambient environment threaded
through every handler invocation. -/
def processMessagesAmb (amb : Ambient) (scale : List String) (st : IngestState) :
    List WsMessage → IngestState
  | [] => st
  | d :: ds => processMessagesAmb amb scale (onMessageAmb amb scale st d) ds

/-- The default theme's default scale (themes.ts, defaultTheme). -/
def defaultScale : List String :=
  ["C4", "D4", "E4", "F4", "G4", "A4", "B4", "C5"]

/-- The note index exactly as the claim states it:
abs(event.startLine + runningIndex) mod the scale length. -/
def noteIndexSpec (d : WsMessage) (st : IngestState) (m : Nat) : Nat :=
  (d.startLine + (st.messageCounter : Int)).natAbs % m

/-- Tone.Time(duration).toSeconds() at the default 120 BPM transport, for
the three symbolic durations the mapper emits. -/
def durSeconds (s : String) : Rat :=
  if s = "4n" then 1/2
  else if s = "8n" then 1/4
  else if s = "16n" then 1/8
  else 0

/-- A schedule entry `{ time: cumulativeTime, ...event }`. -/
structure ScheduledEvent where
  time : Rat
  ev : MusicalEvent
deriving DecidableEq, Repr

/-- The onclose schedule fold: starting from an empty list and
cumulativeTime = 0, push `{ time: cumulativeTime, ...event }` and then add
the event duration.  Returns the schedule and the final cumulativeTime. -/
def buildSchedule (evs : List MusicalEvent) : List ScheduledEvent × Rat :=
  evs.foldl
    (fun acc ev =>
      (acc.1 ++ [{ time := acc.2, ev := ev }], acc.2 + durSeconds ev.duration))
    ([], 0)

/-- Structural form of the schedule: the event at the head starts at the
accumulated time, the tail is scheduled after its duration. -/
def schedFrom (t : Rat) : List MusicalEvent → List ScheduledEvent
  | [] => []
  | e :: es => { time := t, ev := e } :: schedFrom (t + durSeconds e.duration) es

/-- The claim-side offset recurrence: the first offset is the running
start, each following offset adds the previous duration
(startOffset_0 = 0, startOffset_i = startOffset_im1 + duration_im1). -/
def specOffsets (t : Rat) : List Rat → List Rat
  | [] => []
  | d :: ds => t :: specOffsets (t + d) ds

/-- A transient 3D marker node held in the visualNodes list (the fields of
NodeVisualProps that the lifecycle claims depend on). -/
structure VisNode where
  nodeType : String
  isError : Bool
  durationSec : Rat
deriving DecidableEq, Repr

/-- The `setVisualNodes(prev => [...prev.slice(-30), newNode])` update run
at each dispatched event: keep the last 30 nodes, append the new one. -/
def pushVisualNode (prev : List VisNode) (n : VisNode) : List VisNode :=
  prev.drop (prev.length - 30) ++ [n]

/-- The App component state relevant to the playback lifecycle: the React
state fields plus the resources held in refs (websocket, synth, sequence)
and the callbacks pending on the Tone Transport and the settle timer. -/
structure AppState where
  isPlaying : Bool
  status : String
  visualNodes : List VisNode
  highlightedLines : Option (Int × Int)
  errorMessage : Option String
  currentErrorType : Option String
  allErrors : List ErrorInfo
  activePalette : String
  wsOpen : Bool
  synthActive : Bool
  sequenceActive : Bool
  sequenceLoop : Bool
  transportRunning : Bool
  transportCallbacks : Nat
  stopTimer : Option Rat
  cameraEffect : Rat
deriving DecidableEq, Repr

/-- The initial component state (the useState initialisers plus empty
refs). -/
def initialAppState : AppState :=
  { isPlaying := false
    status := "Ready. Paste your code and press Play."
    visualNodes := []
    highlightedLines := none
    errorMessage := none
    currentErrorType := none
    allErrors := []
    activePalette := "default"
    wsOpen := false
    synthActive := false
    sequenceActive := false
    sequenceLoop := false
    transportRunning := false
    transportCallbacks := 0
    stopTimer := none
    cameraEffect := 0 }

/-- The stopMusic callback: Tone.Transport.stop(), Tone.Transport.cancel()
(dropping every pending transport-scheduled callback), dispose the
sequence, clear the playing flag, the highlighted range and the error
display, and set the ready status.  It does not touch the synth ref, the
websocket, the visualNodes list or the settle timer. -/
def stopMusic (s : AppState) : AppState :=
  { s with transportRunning := false
           transportCallbacks := 0
           sequenceActive := false
           isPlaying := false
           highlightedLines := none
           errorMessage := none
           currentErrorType := none
           status := "Ready to play again." }

/-- The unmount effect cleanup: stopMusic(), then close the websocket and
dispose the synth. -/
def unmountCleanup (s : AppState) : AppState :=
  let s := stopMusic s
  { s with wsOpen := false, synthActive := false }

/-- The ws.current.onerror handler: set the connection-error status, then
stopMusic (whose status write lands last). -/
def onWsError (s : AppState) : AppState :=
  stopMusic { s with status := "Error connecting to visualizer." }

/-- A theme as far as the orchestrator consumes it: its display name and
its musicPalettes object (palette key to 8-note scale). -/
structure Theme where
  name : String
  musicPalettes : String → Option (List String)

/-- defaultTheme.musicPalettes (themes.ts). -/
def defaultThemePalettes : String → Option (List String) := fun k =>
  if k = "Go-Concurrent" then some ["C3", "D#3", "G3", "G#3", "C4", "D#4", "G4", "G#4"]
  else if k = "Go-Systems" then some ["A2", "B2", "C3", "E3", "A3", "B3", "C4", "E4"]
  else if k = "JS-Async" then some ["G4", "A4", "C5", "D5", "F5", "G5", "A5", "C6"]
  else if k = "JS-DOM" then some ["C4", "E4", "G4", "A4", "B4", "C5", "E5", "G5"]
  else if k = "JS-Functional" then some ["D3", "F3", "A3", "C4", "E4", "F4", "A4", "C5"]
  else if k = "Algorithmic-Logic" then some ["C4", "D4", "E4", "F#4", "G#4", "A#4", "C5", "D5"]
  else if k = "default" then some ["C4", "D4", "E4", "F4", "G4", "A4", "B4", "C5"]
  else none

/-- harryPotterTheme.musicPalettes (themes.ts). -/
def harryPotterPalettes : String → Option (List String) := fun k =>
  if k = "Go-Concurrent" then some ["F3", "G3", "A3", "Bb3", "C4", "D4", "Eb4", "F4"]
  else if k = "Go-Systems" then some ["D3", "F3", "G3", "A3", "C4", "D4", "F4", "G4"]
  else if k = "JS-Async" then some ["G4", "Bb4", "C5", "D5", "F5", "G5", "Bb5", "C6"]
  else if k = "JS-DOM" then some ["C4", "Eb4", "F4", "G4", "Bb4", "C5", "Eb5", "F5"]
  else if k = "JS-Functional" then some ["A3", "C4", "D4", "F4", "G4", "A4", "C5", "D5"]
  else if k = "Algorithmic-Logic" then some ["E4", "F#4", "G#4", "A4", "B4", "C#5", "D#5", "E5"]
  else if k = "default" then some ["F4", "G4", "A4", "Bb4", "C5", "D5", "Eb5", "F5"]
  else none

/-- strangerThingsTheme.musicPalettes (themes.ts). -/
def strangerThingsPalettes : String → Option (List String) := fun k =>
  if k = "Go-Concurrent" then some ["C2", "D#2", "F2", "G#2", "C3", "D#3", "F3", "G#3"]
  else if k = "Go-Systems" then some ["A1", "C2", "D2", "F2", "A2", "C3", "D3", "F3"]
  else if k = "JS-Async" then some ["E3", "G3", "B3", "D4", "E4", "G4", "B4", "D5"]
  else if k = "JS-DOM" then some ["F#2", "A2", "C3", "E3", "F#3", "A3", "C4", "E4"]
  else if k = "JS-Functional" then some ["Bb2", "D3", "F3", "Ab3", "Bb3", "D4", "F4", "Ab4"]
  else if k = "Algorithmic-Logic" then some ["C#3", "E3", "G3", "Bb3", "C#4", "E4", "G4", "Bb4"]
  else if k = "default" then some ["D3", "F3", "Ab3", "C4", "D4", "F4", "Ab4", "C5"]
  else none

/-- marvelTheme.musicPalettes (themes.ts). -/
def marvelPalettes : String → Option (List String) := fun k =>
  if k = "Go-Concurrent" then some ["E3", "G3", "B3", "D4", "E4", "G4", "B4", "D5"]
  else if k = "Go-Systems" then some ["C3", "E3", "G3", "C4", "E4", "G4", "C5", "E5"]
  else if k = "JS-Async" then some ["A3", "C4", "E4", "G4", "A4", "C5", "E5", "G5"]
  else if k = "JS-DOM" then some ["F3", "A3", "C4", "F4", "A4", "C5", "F5", "A5"]
  else if k = "JS-Functional" then some ["D3", "F#3", "A3", "D4", "F#4", "A4", "D5", "F#5"]
  else if k = "Algorithmic-Logic" then some ["G3", "B3", "D4", "G4", "B4", "D5", "G5", "B5"]
  else if k = "default" then some ["C4", "E4", "G4", "C5", "E5", "G5", "C6", "E6"]
  else none

/-- disneyTheme.musicPalettes (themes.ts). -/
def disneyPalettes : String → Option (List String) := fun k =>
  if k = "Go-Concurrent" then some ["C4", "D4", "E4", "F4", "G4", "A4", "B4", "C5"]
  else if k = "Go-Systems" then some ["F4", "G4", "A4", "Bb4", "C5", "D5", "E5", "F5"]
  else if k = "JS-Async" then some ["G4", "A4", "B4", "C5", "D5", "E5", "F#5", "G5"]
  else if k = "JS-DOM" then some ["Eb4", "F4", "G4", "Ab4", "Bb4", "C5", "D5", "Eb5"]
  else if k = "JS-Functional" then some ["A4", "B4", "C#5", "D5", "E5", "F#5", "G#5", "A5"]
  else if k = "Algorithmic-Logic" then some ["D4", "E4", "F#4", "G4", "A4", "B4", "C#5", "D5"]
  else if k = "default" then some ["C4", "E4", "G4", "C5", "E5", "G5", "C6", "E6"]
  else none

/-- The five Theme values of themes.ts, restricted to the fields the
orchestrator reads. -/
def defaultTheme : Theme := { name := "Default Dark", musicPalettes := defaultThemePalettes }

/-- harryPotterTheme (themes.ts). -/
def harryPotterTheme : Theme := { name := "Harry Potter", musicPalettes := harryPotterPalettes }

/-- strangerThingsTheme (themes.ts). -/
def strangerThingsTheme : Theme := { name := "Stranger Things", musicPalettes := strangerThingsPalettes }

/-- marvelTheme (themes.ts). -/
def marvelTheme : Theme := { name := "Marvel", musicPalettes := marvelPalettes }

/-- disneyTheme (themes.ts). -/
def disneyTheme : Theme := { name := "Disney", musicPalettes := disneyPalettes }

/-- The themes registry object (themes.ts). -/
def themesReg (name : String) : Option Theme :=
  if name = "default" then some defaultTheme
  else if name = "harryPotter" then some harryPotterTheme
  else if name = "strangerThings" then some strangerThingsTheme
  else if name = "marvel" then some marvelTheme
  else if name = "disney" then some disneyTheme
  else none

/-- getTheme (themes.ts): `themes[themeName] || defaultTheme`. -/
def getTheme (name : String) : Theme :=
  (themesReg name).getD defaultTheme

/-- A voice configuration in the sound-effect registry, restricted to the
identifying fields (the SoundEffectConfig name and synth constructor). -/
structure SoundEffectConfig where
  name : String
  synthType : String
deriving DecidableEq, Repr

/-- defaultSounds (soundEffects.ts). -/
def defaultSounds : String → Option SoundEffectConfig := fun k =>
  if k = "Go-Concurrent" then some { name := "FM Synthesis", synthType := "FMSynth" }
  else if k = "Go-Systems" then some { name := "AM Synthesis", synthType := "AMSynth" }
  else if k = "JS-Async" then some { name := "Pluck Synthesis", synthType := "PluckSynth" }
  else if k = "JS-DOM" then some { name := "Poly Synthesis", synthType := "PolySynth" }
  else if k = "JS-Functional" then some { name := "Membrane Synthesis", synthType := "MembraneSynth" }
  else if k = "Algorithmic-Logic" then some { name := "Poly Synthesis", synthType := "PolySynth" }
  else if k = "default" then some { name := "Default Poly", synthType := "PolySynth" }
  else none

/-- harryPotterSounds (soundEffects.ts). -/
def harryPotterSounds : String → Option SoundEffectConfig := fun k =>
  if k = "Go-Concurrent" then some { name := "Spell Casting", synthType := "FMSynth" }
  else if k = "Go-Systems" then some { name := "Potion Brewing", synthType := "AMSynth" }
  else if k = "JS-Async" then some { name := "Quidditch Flight", synthType := "PluckSynth" }
  else if k = "JS-DOM" then some { name := "Magic Wand", synthType := "PolySynth" }
  else if k = "JS-Functional" then some { name := "Ancient Magic", synthType := "MembraneSynth" }
  else if k = "Algorithmic-Logic" then some { name := "Divination", synthType := "DuoSynth" }
  else if k = "default" then some { name := "Hogwarts Theme", synthType := "PolySynth" }
  else none

/-- strangerThingsSounds (soundEffects.ts). -/
def strangerThingsSounds : String → Option SoundEffectConfig := fun k =>
  if k = "Go-Concurrent" then some { name := "Demogorgon", synthType := "FMSynth" }
  else if k = "Go-Systems" then some { name := "Lab Equipment", synthType := "NoiseSynth" }
  else if k = "JS-Async" then some { name := "Flickering Lights", synthType := "AMSynth" }
  else if k = "JS-DOM" then some { name := "Upside Down", synthType := "FMSynth" }
  else if k = "JS-Functional" then some { name := "Mind Control", synthType := "DuoSynth" }
  else if k = "Algorithmic-Logic" then some { name := "Eleven Powers", synthType := "MetalSynth" }
  else if k = "default" then some { name := "Stranger Things Theme", synthType := "MonoSynth" }
  else none

/-- marvelSounds (soundEffects.ts). -/
def marvelSounds : String → Option SoundEffectConfig := fun k =>
  if k = "Go-Concurrent" then some { name := "Iron Man Suit", synthType := "FMSynth" }
  else if k = "Go-Systems" then some { name := "FRIDAY AI", synthType := "PolySynth" }
  else if k = "JS-Async" then some { name := "Web Slinging", synthType := "PluckSynth" }
  else if k = "JS-DOM" then some { name := "Avengers Assemble", synthType := "PolySynth" }
  else if k = "JS-Functional" then some { name := "Thor Thunder", synthType := "MembraneSynth" }
  else if k = "Algorithmic-Logic" then some { name := "Doctor Strange Magic", synthType := "DuoSynth" }
  else if k = "default" then some { name := "Marvel Fanfare", synthType := "PolySynth" }
  else none

/-- disneySounds (soundEffects.ts). -/
def disneySounds : String → Option SoundEffectConfig := fun k =>
  if k = "Go-Concurrent" then some { name := "Fairy Godmother Magic", synthType := "FMSynth" }
  else if k = "Go-Systems" then some { name := "Enchanted Objects", synthType := "PolySynth" }
  else if k = "JS-Async" then some { name := "Flying Carpet", synthType := "PluckSynth" }
  else if k = "JS-DOM" then some { name := "Princess Ballroom", synthType := "PolySynth" }
  else if k = "JS-Functional" then some { name := "Under the Sea", synthType := "MembraneSynth" }
  else if k = "Algorithmic-Logic" then some { name := "Elsa Ice Magic", synthType := "DuoSynth" }
  else if k = "default" then some { name := "When You Wish Upon a Star", synthType := "PolySynth" }
  else none

/-- The soundEffects registry object (soundEffects.ts). -/
def soundEffectsReg (themeName : String) :
    Option (String → Option SoundEffectConfig) :=
  if themeName = "default" then some defaultSounds
  else if themeName = "harryPotter" then some harryPotterSounds
  else if themeName = "strangerThings" then some strangerThingsSounds
  else if themeName = "marvel" then some marvelSounds
  else if themeName = "disney" then some disneySounds
  else none

/-- createThemedSynth (soundEffects.ts): resolve the theme's sound map
(falling back to defaultSounds), then the palette entry (falling back to
the map's default entry); returns the configuration the synth is built
from. -/
def createThemedSynthCfg (themeName paletteKey : String) :
    Option SoundEffectConfig :=
  let themeEffects := (soundEffectsReg themeName).getD defaultSounds
  match themeEffects paletteKey with
  | some c => some c
  | none => themeEffects "default"

/-- The handlePlay genre fallback (App.tsx):
`classification.genre in theme.musicPalettes ? classification.genre :
'default'`. -/
def resolvePaletteKey (genre : String) (th : Theme) : String :=
  if (th.musicPalettes genre).isSome then genre else "default"

/-- The successful-classification prefix of handlePlay, up to the point
the websocket is opened: mark playing, clear the markers, resolve the
palette key, create the themed synth (disposing any previous one) and open
the channel.  Returns the new state and the selected scale. -/
def handlePlaySetup (genre : String) (th : Theme) (s : AppState) :
    AppState × List String :=
  let paletteKey := resolvePaletteKey genre th
  let scale := (th.musicPalettes paletteKey).getD []
  ({ s with isPlaying := true
            visualNodes := []
            status := "2/3: Analyzing code structure..."
            activePalette := paletteKey
            synthActive := true
            wsOpen := true }, scale)

/-- The ws.current.onclose handler: publish the collected errors; with no
usable events report the no-elements status and clear the playing flag;
otherwise build the cumulative schedule, arm the non-looping sequence,
start the transport and set the settle timer at cumulativeTime + 2
seconds. -/
def onCloseHandler (ing : IngestState) (s : AppState) : AppState :=
  let s := { s with allErrors := ing.collectedErrors, wsOpen := false }
  if ing.musicalEvents.length = 0 then
    { s with status := "No parsable musical elements found.", isPlaying := false }
  else
    let sched := buildSchedule ing.musicalEvents
    { s with status := "3/3: Composing and playing music..."
             sequenceActive := true
             sequenceLoop := false
             transportRunning := true
             transportCallbacks := sched.1.length
             stopTimer := some (sched.2 + 2) }

/-- The per-kind error-synth configuration created inside the sequence
callback (oscillator waveform and amplitude envelope). -/
structure ErrorVoiceConfig where
  oscType : String
  attack : Rat
  decay : Rat
  sustain : Rat
  release : Rat
deriving DecidableEq, Repr

/-- The switch on event.errorType in the sequence callback: sawtooth for
syntax errors, square for logical errors, triangle for runtime errors, and
the sine default for every other kind (including best_practice). -/
def errorSynthConfig (errorType : Option String) : ErrorVoiceConfig :=
  if errorType = some "syntax_error" then
    { oscType := "sawtooth", attack := 1/100, decay := 3/10, sustain := 1/5, release := 7/10 }
  else if errorType = some "logical_error" then
    { oscType := "square", attack := 1/50, decay := 1/5, sustain := 3/10, release := 1/2 }
  else if errorType = some "runtime_error" then
    { oscType := "triangle", attack := 1/100, decay := 2/5, sustain := 1/10, release := 4/5 }
  else
    { oscType := "sine", attack := 1/20, decay := 1/10, sustain := 1/5, release := 3/10 }

/-- The audible side effects of one sequence-callback invocation: what is
triggered on the main voice, whether its level is changed, and what
secondary voice (if any) is created, triggered, and scheduled for
disposal. -/
structure DispatchEffect where
  mainVolumeAttenuated : Bool
  mainVolumeRestoreScheduled : Bool
  secondaryVoice : Option ErrorVoiceConfig
  secondaryTrigger : Option (NoteVal × String)
  secondaryDisposalScheduled : Bool
  mainTrigger : Option (NoteVal × String)
  statusErrorMessage : Option String
  statusErrorType : Option String
deriving DecidableEq, Repr

/-- The Tone.Sequence callback (audio part): for an error event, build the
per-kind error synth and trigger it with the event's own note and
duration, publishing the error message and kind; the main voice level is
never changed and no restore or disposal is scheduled.  For a normal
event, trigger the main voice and clear the error display. -/
def dispatchEffect (ev : MusicalEvent) : DispatchEffect :=
  if ev.isError then
    { mainVolumeAttenuated := false
      mainVolumeRestoreScheduled := false
      secondaryVoice := some (errorSynthConfig ev.errorType)
      secondaryTrigger := some (ev.note, ev.duration)
      secondaryDisposalScheduled := false
      mainTrigger := none
      statusErrorMessage := some ev.message
      statusErrorType := ev.errorType }
  else
    { mainVolumeAttenuated := false
      mainVolumeRestoreScheduled := false
      secondaryVoice := none
      secondaryTrigger := none
      secondaryDisposalScheduled := false
      mainTrigger := some (ev.note, ev.duration)
      statusErrorMessage := none
      statusErrorType := none }

/-! ## Helper lemmas -/

lemma processMessagesAmb_eq_pure (amb : Ambient) (scale : List String) :
    ∀ (msgs : List WsMessage) (st : IngestState),
      processMessagesAmb amb scale st msgs = processMessages scale st msgs := by
  intro msgs
  induction msgs with
  | nil => intro st; rfl
  | cons d ds ih => intro st; simp [processMessagesAmb, processMessages, onMessageAmb, ih]

/-! ## Claim theorems -/

/-- C9: the event-to-music mapping is deterministic.  Runs of the
onmessage mapper over the same ordered message sequence and the same scale
agree for any two ambient environments (wall clock, random stream): the
handler reads neither, so both runs coincide with the pure fold. -/
theorem C9_mapping_deterministic (amb1 amb2 : Ambient) (scale : List String)
    (st : IngestState) (msgs : List WsMessage) :
    processMessagesAmb amb1 scale st msgs = processMessagesAmb amb2 scale st msgs
  ∧ processMessagesAmb amb1 scale st msgs = processMessages scale st msgs := by
  refine ⟨?_, processMessagesAmb_eq_pure amb1 scale msgs st⟩
  rw [processMessagesAmb_eq_pure, processMessagesAmb_eq_pure]

/-- C10: each dispatch keeps the last 30 visual marker nodes and appends
one, so the visualNodes list never exceeds 31 entries after any dispatch,
whatever its previous length. -/
theorem C10_visual_nodes_bound (prev : List VisNode) (n : VisNode) :
    (pushVisualNode prev n).length = min prev.length 30 + 1
  ∧ (pushVisualNode prev n).length ≤ 31 := by
  unfold pushVisualNode
  rw [List.length_append, List.length_drop, List.length_singleton]
  omega

/-- C4 counterexample: from a mid-playback state with a live synth, an
open channel and a visual marker, stopMusic leaves the synth allocated,
the channel open and the marker list untouched, contradicting the claimed
full teardown (voice disposed, markers cleared, no channel open). -/
def visNode0 : VisNode := { nodeType := "function_declaration", isError := false, durationSec := 1/2 }

/-- A concrete mid-playback state used to exercise the stop paths. -/
def busyState : AppState :=
  { initialAppState with
      isPlaying := true
      wsOpen := true
      synthActive := true
      sequenceActive := true
      transportRunning := true
      transportCallbacks := 3
      visualNodes := [visNode0]
      highlightedLines := some (1, 3) }

/-- C4 fails as stated: stopMusic does not dispose the active voice, does
not clear the visual markers and does not close the channel. -/
theorem C4_counterexample :
    (stopMusic busyState).synthActive = true
  ∧ (stopMusic busyState).visualNodes = [visNode0]
  ∧ (stopMusic busyState).wsOpen = true :=
  ⟨rfl, rfl, rfl⟩

/-- C4 (amended): stopMusic stops the transport, cancels every pending
transport callback, disposes the sequence, clears the playing flag, the
highlighted range and the error display, and is idempotent; it leaves the
synth voice, the open channel, the visual markers and the settle timer
untouched.  The unmount cleanup additionally closes the channel and
disposes the voice, and is likewise idempotent; the channel-error path
reduces to stopMusic.  All paths are total state updates (never throw). -/
theorem C4_stop_teardown (s : AppState) :
    stopMusic (stopMusic s) = stopMusic s
  ∧ (stopMusic s).transportRunning = false
  ∧ (stopMusic s).transportCallbacks = 0
  ∧ (stopMusic s).sequenceActive = false
  ∧ (stopMusic s).isPlaying = false
  ∧ (stopMusic s).highlightedLines = none
  ∧ (stopMusic s).errorMessage = none
  ∧ (stopMusic s).currentErrorType = none
  ∧ (stopMusic s).synthActive = s.synthActive
  ∧ (stopMusic s).wsOpen = s.wsOpen
  ∧ (stopMusic s).visualNodes = s.visualNodes
  ∧ (stopMusic s).stopTimer = s.stopTimer
  ∧ unmountCleanup (unmountCleanup s) = unmountCleanup s
  ∧ (unmountCleanup s).synthActive = false
  ∧ (unmountCleanup s).wsOpen = false
  ∧ (unmountCleanup s).visualNodes = s.visualNodes
  ∧ onWsError s = stopMusic s :=
  ⟨rfl, rfl, rfl, rfl, rfl, rfl, rfl, rfl, rfl, rfl, rfl, rfl, rfl, rfl, rfl, rfl, rfl⟩

/-- The structural event types with a dedicated mapper case. -/
def knownStructTypes : List String :=
  ["function_declaration", "arrow_function", "for_statement", "while_statement", "if_statement"]

set_option maxRecDepth 8000 in
/-- C1: on a scale of length 8, each structural (non-error) message is
mapped with noteIndex = abs(startLine + runningIndex) mod 8: function
events emit the chord (scale[noteIndex], scale[(noteIndex+3) mod 8]) for a
quarter note and advance the counter; loop and conditional events emit
scale[noteIndex] for an eighth note and advance the counter; any other
type shorter than 5 characters or containing the word comment is dropped
(state unchanged); every remaining type emits scale[noteIndex] for a
sixteenth note and advances the counter. -/
theorem C1_note_mapper (scale : List String) (st : IngestState) (d : WsMessage)
    (hE : d.isError = false) (hLen : scale.length = 8) :
    ((d.type = "function_declaration" ∨ d.type = "arrow_function") →
      onMessage scale st d =
        { st with
            messageCounter := st.messageCounter + 1
            musicalEvents := st.musicalEvents ++
              [mkStructuralEvent
                (NoteVal.chord (scale.getD (noteIndexSpec d st 8) "")
                               (scale.getD ((noteIndexSpec d st 8 + 3) % 8) ""))
                "4n" d] })
  ∧ ((d.type = "for_statement" ∨ d.type = "while_statement" ∨ d.type = "if_statement") →
      onMessage scale st d =
        { st with
            messageCounter := st.messageCounter + 1
            musicalEvents := st.musicalEvents ++
              [mkStructuralEvent (NoteVal.single (scale.getD (noteIndexSpec d st 8) ""))
                "8n" d] })
  ∧ (d.type ∉ knownStructTypes →
      (d.type.length < 5 ∨ includesStr d.type "comment" = true) →
      onMessage scale st d = st)
  ∧ (d.type ∉ knownStructTypes →
      ¬(d.type.length < 5 ∨ includesStr d.type "comment" = true) →
      onMessage scale st d =
        { st with
            messageCounter := st.messageCounter + 1
            musicalEvents := st.musicalEvents ++
              [mkStructuralEvent (NoteVal.single (scale.getD (noteIndexSpec d st 8) ""))
                "16n" d] }) := by
  have hIdx : ∀ i : Nat, scaleIdx scale i = scale.getD (i % 8) "" := by
    intro i; simp [scaleIdx, hLen]
  have hSpec : noteIndexSpec d st 8
      = (d.startLine + (st.messageCounter : Int)).natAbs % 8 := rfl
  refine ⟨?_, ?_, ?_, ?_⟩
  · rintro (h | h) <;>
      simp [onMessage, hE, h, emitStructural, hIdx, hSpec]
  · rintro (h | h | h) <;>
      simp [onMessage, hE, h, emitStructural, hIdx, hSpec]
  · intro hOther hDrop
    simp only [knownStructTypes, List.mem_cons, List.not_mem_nil, or_false, not_or] at hOther
    obtain ⟨h1, h2, h3, h4, h5⟩ := hOther
    simp [onMessage, hE, h1, h2, h3, h4, h5, hDrop]
  · intro hOther hKeep
    simp only [knownStructTypes, List.mem_cons, List.not_mem_nil, or_false, not_or] at hOther
    obtain ⟨h1, h2, h3, h4, h5⟩ := hOther
    simp [onMessage, hE, h1, h2, h3, h4, h5, hKeep, emitStructural, hIdx, hSpec]

/-- A function-declaration message at line 0 (the spec's Scenario B). -/
def msgFun : WsMessage := { type := "function_declaration", startLine := 0, endLine := 8 }

/-- The empty ingest accumulator. -/
def ingest0 : IngestState := { musicalEvents := [], messageCounter := 0, collectedErrors := [] }

/-- C1 witness: on the default scale, a function declaration at line 0
with runningIndex 0 maps to the chord (C4, F4) with a quarter note and
advances the counter to 1 (Scenario B). -/
theorem C1_note_mapper_witness :
    onMessage defaultScale ingest0 msgFun =
      { musicalEvents := [mkStructuralEvent (NoteVal.chord "C4" "F4") "4n" msgFun]
        messageCounter := 1
        collectedErrors := [] } := by
  have h := (C1_note_mapper defaultScale ingest0 msgFun rfl rfl).1 (Or.inl rfl)
  simpa [ingest0, msgFun, noteIndexSpec, defaultScale] using h

/-- The claim-side fixed error lookup table: error kind to pitch and
duration (syntax C2 quarter, logical E3 eighth, runtime D2 quarter, best
practice A4 sixteenth, anything else C2 eighth). -/
def errorTableSpec (k : String) : NoteVal × String :=
  if k = "syntax_error" then (NoteVal.single "C2", "4n")
  else if k = "logical_error" then (NoteVal.single "E3", "8n")
  else if k = "runtime_error" then (NoteVal.single "D2", "4n")
  else if k = "best_practice" then (NoteVal.single "A4", "16n")
  else (NoteVal.single "C2", "8n")

/-- C2: every error message bypasses the scale: it is mapped through the
fixed lookup table, always appended (never dropped) to the musicalEvents
buffer and to the collected-errors list, and leaves the runningIndex
unchanged. -/
theorem C2_error_mapper (scale : List String) (st : IngestState) (d : WsMessage)
    (hE : d.isError = true) :
    onMessage scale st d =
      { st with
          collectedErrors := st.collectedErrors ++
            [{ line := d.line, type := d.type, message := d.message,
               severity := jsOrOne d.severity }]
          musicalEvents := st.musicalEvents ++
            [mkErrorEvent (errorTableSpec d.type).1 (errorTableSpec d.type).2 d] }
  ∧ (onMessage scale st d).messageCounter = st.messageCounter
  ∧ (onMessage scale st d).musicalEvents.length = st.musicalEvents.length + 1 := by
  have hMain : onMessage scale st d =
      { st with
          collectedErrors := st.collectedErrors ++
            [{ line := d.line, type := d.type, message := d.message,
               severity := jsOrOne d.severity }]
          musicalEvents := st.musicalEvents ++
            [mkErrorEvent (errorTableSpec d.type).1 (errorTableSpec d.type).2 d] } := by
    simp only [onMessage, hE, if_true, errorTableSpec]
  refine ⟨hMain, ?_, ?_⟩
  · simp [hMain]
  · simp [hMain]

/-- A syntax-error message (the spec's Scenario D). -/
def msgSyn : WsMessage :=
  { isError := true, type := "syntax_error", line := 2, message := "unexpected token" }

/-- C2 witness: a syntax error maps to (C2, quarter note), lands in both
the event buffer and the error summary with default severity 1, and does
not advance the counter (Scenario D). -/
theorem C2_error_mapper_witness :
    onMessage defaultScale ingest0 msgSyn =
      { musicalEvents := [mkErrorEvent (NoteVal.single "C2") "4n" msgSyn]
        messageCounter := 0
        collectedErrors :=
          [{ line := 2, type := "syntax_error", message := "unexpected token", severity := 1 }] } := by
  have h := (C2_error_mapper defaultScale ingest0 msgSyn rfl).1
  simpa [ingest0, msgSyn, errorTableSpec, jsOrOne] using h

lemma durSeconds_nonneg (s : String) : 0 ≤ durSeconds s := by
  unfold durSeconds
  split_ifs <;> norm_num

lemma durSeconds_4n : durSeconds "4n" = 1/2 := by simp [durSeconds]

lemma durSeconds_8n : durSeconds "8n" = 1/4 := by simp [durSeconds]

lemma durSeconds_16n : durSeconds "16n" = 1/8 := by simp [durSeconds]

/-- The duration of an event, in seconds. -/
def evDur (e : MusicalEvent) : Rat := durSeconds e.duration

lemma buildSchedule_foldl (evs : List MusicalEvent) :
    ∀ (acc : List ScheduledEvent) (t : Rat),
      evs.foldl
        (fun acc ev =>
          (acc.1 ++ [{ time := acc.2, ev := ev }], acc.2 + durSeconds ev.duration))
        (acc, t)
      = (acc ++ schedFrom t evs, t + (evs.map evDur).sum) := by
  induction evs with
  | nil => intro acc t; simp [schedFrom]
  | cons e es ih =>
    intro acc t
    simp only [List.foldl_cons, ih, schedFrom, List.map_cons, List.sum_cons]
    rw [List.append_assoc, add_assoc]
    rfl

lemma buildSchedule_eq (evs : List MusicalEvent) :
    buildSchedule evs = (schedFrom 0 evs, (evs.map evDur).sum) := by
  unfold buildSchedule
  rw [buildSchedule_foldl]
  simp

lemma schedFrom_map_ev (evs : List MusicalEvent) :
    ∀ t : Rat, (schedFrom t evs).map (fun se => se.ev) = evs := by
  induction evs with
  | nil => intro t; rfl
  | cons e es ih => intro t; simp [schedFrom, ih]

lemma schedFrom_map_time (evs : List MusicalEvent) :
    ∀ t : Rat,
      (schedFrom t evs).map (fun se => se.time) = specOffsets t (evs.map evDur) := by
  induction evs with
  | nil => intro t; rfl
  | cons e es ih => intro t; simp [schedFrom, specOffsets, ih, evDur]

lemma schedFrom_length (evs : List MusicalEvent) :
    ∀ t : Rat, (schedFrom t evs).length = evs.length := by
  induction evs with
  | nil => intro t; rfl
  | cons e es ih => intro t; simp [schedFrom, ih]

lemma schedFrom_get_time (evs : List MusicalEvent) :
    ∀ (t : Rat) (i : Nat) (h : i < (schedFrom t evs).length),
      ((schedFrom t evs).get ⟨i, h⟩).time = t + ((evs.map evDur).take i).sum := by
  induction evs with
  | nil => intro t i h; simp [schedFrom] at h
  | cons e es ih =>
    intro t i h
    cases i with
    | zero => simp [schedFrom]
    | succ n =>
      simp only [schedFrom, List.get_cons_succ, List.map_cons, List.take_succ_cons,
        List.sum_cons, ih, ← add_assoc, evDur]

lemma chain_specOffsets (durs : List Rat) :
    ∀ t : Rat, (∀ d ∈ durs, 0 ≤ d) →
      List.Chain' (· ≤ ·) (specOffsets t durs) := by
  induction durs with
  | nil => intro t _; simp [specOffsets]
  | cons d ds ih =>
    intro t h
    cases ds with
    | nil => simp [specOffsets]
    | cons d2 ds2 =>
      simp only [specOffsets]
      rw [List.chain'_cons]
      refine ⟨le_add_of_nonneg_right (h d (by simp)), ?_⟩
      have := ih (t + d) (fun x hx => h x (by simp [hx]))
      simpa [specOffsets] using this

lemma schedFrom_lastD (evs : List MusicalEvent) :
    ∀ (t x : Rat),
      (((schedFrom t evs).map (fun se => se.time + durSeconds se.ev.duration)).getLastD x)
      = if evs.length = 0 then x else t + (evs.map evDur).sum := by
  induction evs with
  | nil => intro t x; simp [schedFrom]
  | cons e es ih =>
    intro t x
    simp only [schedFrom, List.map_cons, List.getLastD_cons, ih]
    cases es with
    | nil => simp [evDur]
    | cons e2 es2 => simp [evDur, add_assoc]

/-- C3: the schedule built in the onclose handler preserves the event
order verbatim; its start offsets follow the spec recurrence
(startOffset_0 = 0, each next offset adds the previous duration), equal
the cumulative sum of the preceding durations, and are monotonically
non-decreasing; and the returned total duration equals the last event's
start offset plus its duration (0 for an empty input). -/
theorem C3_schedule_fold (evs : List MusicalEvent) :
    ((buildSchedule evs).1.map (fun se => se.ev) = evs)
  ∧ ((buildSchedule evs).1.map (fun se => se.time)
      = specOffsets 0 (evs.map evDur))
  ∧ (∀ (i : Nat) (h : i < (buildSchedule evs).1.length),
      ((buildSchedule evs).1.get ⟨i, h⟩).time = ((evs.map evDur).take i).sum)
  ∧ List.Chain' (· ≤ ·) ((buildSchedule evs).1.map (fun se => se.time))
  ∧ ((buildSchedule evs).2
      = ((buildSchedule evs).1.map
          (fun se => se.time + durSeconds se.ev.duration)).getLastD 0) := by
  rw [buildSchedule_eq]
  refine ⟨schedFrom_map_ev evs 0, schedFrom_map_time evs 0, ?_, ?_, ?_⟩
  · intro i h
    simpa using schedFrom_get_time evs 0 i h
  · rw [schedFrom_map_time]
    exact chain_specOffsets (evs.map evDur) 0 (by
      intro x hx
      simp only [List.mem_map] at hx
      obtain ⟨e, _, rfl⟩ := hx
      exact durSeconds_nonneg e.duration)
  · rw [schedFrom_lastD]
    cases evs with
    | nil => rfl
    | cons e es => simp

/-- Two concrete structural musical events (a quarter note then an eighth
note) used to exercise the schedule fold. -/
def mev1 : MusicalEvent :=
  { note := NoteVal.single "C4", duration := "4n", type := "function_declaration",
    startLine := 1, endLine := 2, line := 0, message := "", severityRaw := none,
    isError := false, errorType := none }

/-- The second concrete event: an eighth note. -/
def mev2 : MusicalEvent :=
  { note := NoteVal.single "D4", duration := "8n", type := "for_statement",
    startLine := 2, endLine := 3, line := 0, message := "", severityRaw := none,
    isError := false, errorType := none }

/-- C3 witness: for the two-event list (quarter then eighth note) the
schedule starts at offsets 0 and 1/2, the offset at index 1 equals the
first duration, and the total is 3/4 of a second. -/
theorem C3_schedule_fold_witness :
    ((buildSchedule [mev1, mev2]).1.map (fun se => se.time) = [0, 1/2])
  ∧ (((buildSchedule [mev1, mev2]).1.get ⟨1, by decide⟩).time = 1/2)
  ∧ ((buildSchedule [mev1, mev2]).2 = 3/4) := by
  have h := C3_schedule_fold [mev1, mev2]
  refine ⟨?_, ?_, ?_⟩
  · rw [h.2.1]
    norm_num [mev1, mev2, specOffsets, durSeconds_4n, durSeconds_8n, evDur]
  · have h1 := h.2.2.1 1 (by decide)
    rw [h1]
    norm_num [mev1, mev2, durSeconds_4n, durSeconds_8n, evDur]
  · rw [h.2.2.2.2]
    norm_num [buildSchedule, mev1, mev2, durSeconds_4n, durSeconds_8n]

/-- A concrete error musical event: a syntax error at line 2 as mapped by
the onmessage handler. -/
def errEvt0 : MusicalEvent :=
  { note := NoteVal.single "C2", duration := "4n", type := "syntax_error",
    startLine := 0, endLine := 0, line := 2, message := "unexpected token",
    severityRaw := some 2, isError := true, errorType := some "syntax_error" }

/-- C5 fails as stated: dispatching a concrete error event does not
attenuate the main voice, schedules neither a level restore nor a
disposal of the secondary voice, and triggers the secondary voice at the
error's own base note and duration rather than a pitch one octave and a
fifth above it. -/
theorem C5_counterexample :
    (dispatchEffect errEvt0).mainVolumeAttenuated = false
  ∧ (dispatchEffect errEvt0).mainVolumeRestoreScheduled = false
  ∧ (dispatchEffect errEvt0).secondaryDisposalScheduled = false
  ∧ (dispatchEffect errEvt0).secondaryTrigger = some (NoteVal.single "C2", "4n") :=
  ⟨rfl, rfl, rfl, rfl⟩

/-- C5 (amended): dispatching an error MusicalEvent creates a fresh
secondary voice whose waveform and envelope are selected by error kind
(sawtooth for syntax, square for logical, triangle for runtime, the sine
default otherwise, including best practice), triggers it at the error's
own base note and duration, leaves the main voice level untouched, and
schedules neither restoration nor disposal; the (line, kind, message,
severity) summary entry is appended when the error message is received
during ingestion, not at dispatch time. -/
theorem C5_error_dispatch (ev : MusicalEvent) (hE : ev.isError = true)
    (scale : List String) (st : IngestState) (d : WsMessage)
    (hd : d.isError = true) :
    dispatchEffect ev =
      { mainVolumeAttenuated := false
        mainVolumeRestoreScheduled := false
        secondaryVoice := some (errorSynthConfig ev.errorType)
        secondaryTrigger := some (ev.note, ev.duration)
        secondaryDisposalScheduled := false
        mainTrigger := none
        statusErrorMessage := some ev.message
        statusErrorType := ev.errorType }
  ∧ (onMessage scale st d).collectedErrors =
      st.collectedErrors ++
        [{ line := d.line, type := d.type, message := d.message,
           severity := jsOrOne d.severity }]
  ∧ errorSynthConfig (some "syntax_error") ≠ errorSynthConfig (some "logical_error")
  ∧ errorSynthConfig (some "logical_error") ≠ errorSynthConfig (some "runtime_error")
  ∧ errorSynthConfig (some "syntax_error") ≠ errorSynthConfig (some "runtime_error")
  ∧ errorSynthConfig (some "best_practice") = errorSynthConfig (some "unknown_kind") := by
  refine ⟨by simp [dispatchEffect, hE], ?_, by simp [errorSynthConfig],
    by simp [errorSynthConfig], by simp [errorSynthConfig], rfl⟩
  simp [onMessage, hd]

/-- C5 witness: the syntax-error event dispatches through a sawtooth
secondary voice at its own base note, and a received syntax-error message
lands in the collected-errors summary with default severity 1. -/
theorem C5_error_dispatch_witness :
    dispatchEffect errEvt0 =
      { mainVolumeAttenuated := false
        mainVolumeRestoreScheduled := false
        secondaryVoice := some
          { oscType := "sawtooth", attack := 1/100, decay := 3/10,
            sustain := 1/5, release := 7/10 }
        secondaryTrigger := some (NoteVal.single "C2", "4n")
        secondaryDisposalScheduled := false
        mainTrigger := none
        statusErrorMessage := some "unexpected token"
        statusErrorType := some "syntax_error" }
  ∧ (onMessage defaultScale ingest0 msgSyn).collectedErrors =
      [{ line := 2, type := "syntax_error", message := "unexpected token", severity := 1 }] := by
  have h := C5_error_dispatch errEvt0 rfl defaultScale ingest0 msgSyn rfl
  refine ⟨?_, ?_⟩
  · rw [h.1]
    simp [errEvt0, errorSynthConfig]
  · have h2 := h.2.1
    simpa [ingest0, msgSyn, jsOrOne] using h2

/-- A full session in which ingestion delivers no messages at all: the
handlePlay setup (which already creates the themed synth and opens the
channel), the empty message stream, then the close handler. -/
def emptyIngestionRun (genre : String) (th : Theme) (s : AppState) : AppState :=
  onCloseHandler
    (processMessages (handlePlaySetup genre th s).2 ingest0 [])
    (handlePlaySetup genre th s).1

/-- C6 fails as stated: after an empty ingestion the controller does
report the no-elements status and return to a non-playing state, but a
voice was created for the session (handlePlay builds the themed synth
before opening the channel), so the synth is still allocated. -/
theorem C6_counterexample :
    (emptyIngestionRun "Go-Concurrent" defaultTheme initialAppState).synthActive = true
  ∧ (emptyIngestionRun "Go-Concurrent" defaultTheme initialAppState).status
      = "No parsable musical elements found."
  ∧ (emptyIngestionRun "Go-Concurrent" defaultTheme initialAppState).isPlaying = false :=
  ⟨rfl, rfl, rfl⟩

/-- C6 (amended): if ingestion completes with zero usable events, the
controller reports the no-parsable-elements status and clears the playing
flag without arming the sequence, starting the transport or setting the
settle timer, with the markers cleared and the channel closed; the
session's voice, created during setup before ingestion, remains allocated
(it is simply never triggered). -/
theorem C6_empty_ingestion (genre : String) (th : Theme) (s : AppState) :
    (emptyIngestionRun genre th s).status = "No parsable musical elements found."
  ∧ (emptyIngestionRun genre th s).isPlaying = false
  ∧ (emptyIngestionRun genre th s).transportRunning = s.transportRunning
  ∧ (emptyIngestionRun genre th s).sequenceActive = s.sequenceActive
  ∧ (emptyIngestionRun genre th s).stopTimer = s.stopTimer
  ∧ (emptyIngestionRun genre th s).visualNodes = []
  ∧ (emptyIngestionRun genre th s).allErrors = []
  ∧ (emptyIngestionRun genre th s).wsOpen = false
  ∧ (emptyIngestionRun genre th s).synthActive = true :=
  ⟨rfl, rfl, rfl, rfl, rfl, rfl, rfl, rfl, rfl⟩

/-- The ingest result holding the single quarter-note event mev1. -/
def ingOne : IngestState :=
  { musicalEvents := [mev1], messageCounter := 1, collectedErrors := [] }

/-- C7 fails as stated: for a schedule holding one quarter-note event the
engine arms the stop timer at 5/2 seconds (total duration 1/2 plus the
2-second settle delay), not at the last event's start offset plus 2,
which would be 2 seconds. -/
theorem C7_counterexample :
    (onCloseHandler ingOne initialAppState).stopTimer = some (5/2)
  ∧ (((buildSchedule [mev1]).1.map (fun se => se.time)).getLastD 0) + 2 = 2
  ∧ ((5 : Rat)/2 ≠ 2) := by
  refine ⟨?_, ?_, by norm_num⟩
  · norm_num [onCloseHandler, ingOne, buildSchedule, mev1, durSeconds_4n]
  · norm_num [buildSchedule, mev1, durSeconds_4n]

/-- C7 (amended): playback is single pass (the sequence does not loop)
and self-terminating: the settle timer is armed at the total duration
plus exactly 2 seconds, where the total duration equals the last
scheduled event's start offset plus that event's own duration. -/
theorem C7_single_pass (ing : IngestState) (s : AppState)
    (h : ing.musicalEvents ≠ []) :
    (onCloseHandler ing s).sequenceLoop = false
  ∧ (onCloseHandler ing s).stopTimer = some ((buildSchedule ing.musicalEvents).2 + 2)
  ∧ (buildSchedule ing.musicalEvents).2
      = ((buildSchedule ing.musicalEvents).1.map
          (fun se => se.time + durSeconds se.ev.duration)).getLastD 0 := by
  have hlen : ¬ ing.musicalEvents.length = 0 := by
    simpa [List.length_eq_zero] using h
  refine ⟨?_, ?_, ?_⟩
  · simp [onCloseHandler, hlen]
  · simp [onCloseHandler, hlen]
  · rw [buildSchedule_eq]
    simp only [schedFrom_lastD]
    rw [if_neg hlen]
    simp

/-- C7 witness: for the one-event schedule the sequence is non-looping
and the stop timer sits at the total duration plus 2 seconds. -/
theorem C7_single_pass_witness :
    (onCloseHandler ingOne initialAppState).sequenceLoop = false
  ∧ (onCloseHandler ingOne initialAppState).stopTimer
      = some ((buildSchedule [mev1]).2 + 2) := by
  have h := C7_single_pass ingOne initialAppState (by simp [ingOne])
  exact ⟨h.1, h.2.1⟩

lemma getTheme_default_palette (name : String) :
    ((getTheme name).musicPalettes "default").isSome = true := by
  unfold getTheme themesReg
  split_ifs <;> rfl

lemma soundMap_default (name : String) :
    (((soundEffectsReg name).getD defaultSounds) "default").isSome = true := by
  unfold soundEffectsReg
  split_ifs <;> rfl

/-- C8: palette resolution is total.  For every genre label the key
resolved against the active theme (the label when present, otherwise the
default) always names a palette of that theme, and for every theme key
and palette key createThemedSynth always finds a voice configuration
(through the defaultSounds and per-map default fallbacks). -/
theorem C8_palette_total (genre themeName : String) :
    ((getTheme themeName).musicPalettes
        (resolvePaletteKey genre (getTheme themeName))).isSome = true
  ∧ ∀ pk : String, (createThemedSynthCfg themeName pk).isSome = true := by
  constructor
  · unfold resolvePaletteKey
    by_cases hg : ((getTheme themeName).musicPalettes genre).isSome = true
    · simp [hg]
    · have hg' : ((getTheme themeName).musicPalettes genre).isSome = false := by
        simpa using hg
      simp [hg', getTheme_default_palette]
  · intro pk
    unfold createThemedSynthCfg
    cases hc : ((soundEffectsReg themeName).getD defaultSounds) pk with
    | some c => simp [hc]
    | none => simpa [hc] using soundMap_default themeName

end Swar
